import Mathlib

/-!
A shallow embedding of the movie-assembly pipeline of `movie_merge`
(repository `emil-jacero/auto-reel`), covering the code that the verified
properties are about:

* `src/movie_merge/clip/processor.py`  — `ClipMetadata`, `Clip._extract_metadata`,
  `Clip.convert_to_mp4`, `Clip.create_title`;
* `src/movie_merge/clip/title.py`      — `TitleCardConfig`,
  `TitleCardGenerator.extract_title_segment`,
  `TitleCardGenerator.generate_title_sequence`;
* `src/movie_merge/movie/processor.py` — `Movie._sort_clips` and the three
  phases of `Movie.make` (splice expansion, geometry reconciliation,
  concatenation/cleanup);
* `src/movie_merge/project/processor.py` — `Project._process_directory`.

External effects (ffmpeg / ffprobe / exiftool subprocesses, the file system)
are modelled as explicit parameters: probes become functions handed to the
embedded code, and every external command the code would run is recorded as a
structured `FFCommand` value whose fields mirror the argv the source builds.
Python floats are modelled as `ℚ` (none of the verified properties depends on
rounding), `datetime` values as a wall-clock count plus an optional tzinfo
offset, and `pathlib.Path` values as directory/stem/extension triples.
-/

namespace MovieMerge

/-- Model of a `pathlib.Path`: directory part, stem, and extension.
`p.name` in Python is `stem ++ ext`, `p.suffix` is `ext`,
`p.with_suffix(e)` replaces `ext`. -/
structure MediaPath where
  dir : String
  stem : String
  ext : String
deriving DecidableEq, Repr

/-- Python `path.name` (file name with extension). -/
def MediaPath.fileName (p : MediaPath) : String := p.stem ++ p.ext

/-- Model of Python `str.lower()` (ASCII case folding suffices for the
file-name extensions the code compares). -/
def lowerStr (s : String) : String := ⟨s.data.map Char.toLower⟩

/-- Model of a Python `datetime`: a naive wall-clock reading (seconds) plus
the optional `tzinfo` UTC offset (seconds); `tz = none` is a naive datetime.
Python compares naive datetimes by their wall-clock fields, which is the
order on `wall`. -/
structure DateTime where
  wall : Int
  tz : Option Int
deriving DecidableEq, Repr

/-- The absolute instant a `DateTime` denotes: for an aware datetime the
wall clock minus the UTC offset; a naive datetime is read at face value. -/
def DateTime.instant (dt : DateTime) : Int :=
  match dt.tz with
  | some off => dt.wall - off
  | none => dt.wall

/-- Embeds `normalize_datetime` from `Movie._sort_clips`
(`src/movie_merge/movie/processor.py:98-105`): Python
`dt.replace(tzinfo=None)` drops the tzinfo and keeps the wall-clock fields
unchanged (note: it does not convert to UTC first). -/
def normalize_datetime (dt : DateTime) : DateTime :=
  if dt.tz.isSome then { wall := dt.wall, tz := none } else dt

/-- Embeds `ClipMetadata` (`src/movie_merge/clip/processor.py:21-42`). -/
structure ClipMetadata where
  creation_date : DateTime
  duration : ℚ
  frame_rate : ℚ
  video_codec : String
  width : Nat
  height : Nat
  video_bitrate : Nat
  audio_codec : String
  audio_channels : Nat
  audio_bitrate : Nat
  audio_sample_rate : Nat
  file_size : Nat
  format : String
  name : Option String := none
  extension : Option String := none
deriving DecidableEq, Repr

/-- Embeds `Clip` (`src/movie_merge/clip/processor.py:65-89`), restricted to the
state the assembly pipeline reads.  `original_path` and `title_duration` are
set dynamically by `create_title` in Python (`hasattr` tests), hence
`Option`; `metadata` is always populated once construction succeeded
(`_extract_metadata` either returns a value or raises). -/
structure Clip where
  path : MediaPath
  is_title : Bool
  metadata : ClipMetadata
  is_title_clip : Bool := false
  original_path : Option MediaPath := none
  title_duration : Option ℚ := none
deriving DecidableEq, Repr

/-- Embeds `UNSUPPORTED_VIDEO_EXTENSIONS` (`src/movie_merge/constants.py:3`). -/
def UNSUPPORTED_VIDEO_EXTENSIONS : List String := [".wmv", ".mts"]

/-- Every external command the embedded code records.  Each constructor's
fields mirror, in order, the varying arguments of the literal argv built at
the cited source location. -/
inductive FFCommand where
  /-- Embeds `Movie.make` remainder extraction
  (`src/movie_merge/movie/processor.py:351-363`):
  `[ffmpeg, "-y", "-ss", str(used_duration), "-i", original_clip,
    "-c:v", video_codec, "-c:a", audio_codec, temp_remainder]`. -/
  | extractRemainder (ss : ℚ) (input : MediaPath)
      (videoCodec audioCodec : String) (output : MediaPath)
  /-- Embeds `Movie.make` scale-and-pad re-encode
  (`src/movie_merge/movie/processor.py:419-431`):
  `[ffmpeg, "-y", "-i", clip_path, "-vf", "scale=W:H:...,pad=...,setsar=1",
    "-c:v", video_codec, "-c:a", "copy", scaled_temp]`. -/
  | scalePad (input : MediaPath) (targetW targetH : Nat)
      (videoCodec : String) (output : MediaPath)
  /-- Embeds `Movie.make` final concatenation encode
  (`src/movie_merge/movie/processor.py:441-524`). -/
  | concatEncode (inputs : List MediaPath) (fps : ℚ) (isGpuCodec : Bool)
      (videoCodec audioCodec : String) (crf : Nat) (output : MediaPath)
  /-- Embeds `TitleCardGenerator.extract_title_segment`
  (`src/movie_merge/clip/title.py:288-308`):
  `[ffmpeg, "-y", "-i", input, "-ss", "0", "-t", str(duration),
    "-c:v", "libx264", "-c:a", "aac", "-preset", preset,
    "-threads", str(threads), output]`. -/
  | extractSegment (input : MediaPath) (ss len : ℚ)
      (videoCodec audioCodec preset : String) (threads : Nat)
      (output : MediaPath)
  /-- Embeds `CompositeVideoClip.write_videofile` in
  `TitleCardGenerator.generate_title_sequence`
  (`src/movie_merge/clip/title.py:458-466`). -/
  | renderComposite (input : MediaPath) (fps : ℚ) (preset : String)
      (threads : Nat) (output : MediaPath)
  /-- Embeds `Clip.convert_to_mp4` conversion run
  (`src/movie_merge/clip/processor.py:264-287`). -/
  | convertToMp4 (input : MediaPath) (rate : Option ℚ)
      (videoCodec : String) (output : MediaPath)
  /-- An `ffprobe` metadata probe (`FFmpegWrapper.probe`). -/
  | probe (input : MediaPath)
deriving DecidableEq, Repr

/-! ### Phase 1 of `Movie.make`: splice expansion
(`src/movie_merge/movie/processor.py:329-371`) -/

/-- The configuration `Movie.make` reads while expanding splices. -/
structure SpliceEnv where
  ffmpegPath : String
  tempDir : String
  videoCodec : String
  audioCodec : String
  dryRun : Bool
deriving Repr

/-- Embeds `self.proc_config.options.temp_dir / f"remainder_{original_clip.name}"`
(`src/movie_merge/movie/processor.py:347-349`). -/
def remainderPath (env : SpliceEnv) (original : MediaPath) : MediaPath :=
  { dir := env.tempDir, stem := "remainder_" ++ original.stem, ext := original.ext }

/-- The remainder-extraction command of
`src/movie_merge/movie/processor.py:351-363`. -/
def remainderCmd (env : SpliceEnv) (used_duration : ℚ)
    (original temp_remainder : MediaPath) : FFCommand :=
  .extractRemainder used_duration original env.videoCodec env.audioCodec
    temp_remainder

/-- One iteration of the splice-expansion loop
(`src/movie_merge/movie/processor.py:329-371`), producing the assembly
segments this clip contributes, the commands run for it, and the temp files
registered.  `extractMeta` stands for `clip._extract_metadata(original)`
(an extraction failure there would abort `make` via the outer `except`;
the property below concerns the successful probes the claim quantifies
over).  In dry-run mode the command is not run and the remainder segment is
not appended (`if not self.proc_config.options.dry_run:` line 365). -/
def spliceClip (env : SpliceEnv) (extractMeta : MediaPath → ClipMetadata)
    (clip : Clip) : List MediaPath × List FFCommand × List MediaPath :=
  if clip.is_title_clip then
    match clip.original_path with
    | some original_clip =>
      let original_metadata := extractMeta original_clip
      let used_duration := clip.metadata.duration
      if original_metadata.duration > used_duration then
        let temp_remainder := remainderPath env original_clip
        if env.dryRun then
          ([clip.path], [], [])
        else
          ([clip.path, temp_remainder],
           [remainderCmd env used_duration original_clip temp_remainder],
           [temp_remainder])
      else
        ([clip.path], [], [])
    | none => ([clip.path], [], [])
  else
    ([clip.path], [], [])

/-- The whole splice-expansion loop: `original_clips`, the commands run, and
`temp_files` accumulated, in clip order. -/
def spliceExpand (env : SpliceEnv) (extractMeta : MediaPath → ClipMetadata) :
    List Clip → List MediaPath × List FFCommand × List MediaPath
  | [] => ([], [], [])
  | clip :: rest =>
    let here := spliceClip env extractMeta clip
    let there := spliceExpand env extractMeta rest
    (here.1 ++ there.1, here.2.1 ++ there.2.1, here.2.2 ++ there.2.2)

/-! ### Phase 2 of `Movie.make`: geometry reconciliation
(`src/movie_merge/movie/processor.py:373-438`) -/

/-- The configuration the scaling pass reads. -/
structure GeoEnv where
  ffmpegPath : String
  tempDir : String
  videoCodec : String
  targetW : Nat
  targetH : Nat
  dryRun : Bool
deriving Repr

/-- The dimension check loop (`src/movie_merge/movie/processor.py:374-399`):
walk the segments, remember the first successfully probed dimensions as the
reference, and stop with `same_dimensions = False` at the first probe
failure or the first segment whose dimensions differ from the reference.
`probe` stands for `self._ffmpeg.get_video_info` (returning `none` when it
raises).  Returns `(same_dimensions, reference)`. -/
def dimScan (probe : MediaPath → Option (Nat × Nat)) :
    Option (Nat × Nat) → List MediaPath → Bool × Option (Nat × Nat)
  | ref, [] => (true, ref)
  | ref, p :: rest =>
    match probe p with
    | none => (false, ref)
    | some wh =>
      match ref with
      | none => dimScan probe (some wh) rest
      | some r => if wh = r then dimScan probe (some r) rest else (false, some r)

/-- Embeds `self.proc_config.options.temp_dir / f"scaled_{i}_{clip_path.name}"`
(`src/movie_merge/movie/processor.py:412`). -/
def scaledPath (env : GeoEnv) (i : Nat) (p : MediaPath) : MediaPath :=
  { dir := env.tempDir, stem := "scaled_" ++ toString i ++ "_" ++ p.stem,
    ext := p.ext }

/-- The scale-and-pad command of `src/movie_merge/movie/processor.py:419-431`. -/
def scaleCmd (env : GeoEnv) (p temp : MediaPath) : FFCommand :=
  .scalePad p env.targetW env.targetH env.videoCodec temp

/-- The scaling loop (`src/movie_merge/movie/processor.py:410-438`),
enumerating segments from index `i`; in dry-run mode nothing is run or
appended. Returns `(scaled_clips, commands, temp files)`. -/
def scaleAll (env : GeoEnv) : Nat → List MediaPath →
    List MediaPath × List FFCommand × List MediaPath
  | _, [] => ([], [], [])
  | i, p :: rest =>
    let there := scaleAll env (i + 1) rest
    if env.dryRun then there
    else
      (scaledPath env i p :: there.1,
       scaleCmd env p (scaledPath env i p) :: there.2.1,
       scaledPath env i p :: there.2.2)

/-- Phase 2 in full (`src/movie_merge/movie/processor.py:373-438`): if the
scan saw identical dimensions everywhere (and a reference was established),
the segments are used as-is and no scale command is issued; otherwise every
segment is re-encoded with scale-and-pad. -/
def geometryReconcile (env : GeoEnv) (probe : MediaPath → Option (Nat × Nat))
    (original_clips : List MediaPath) :
    List MediaPath × List FFCommand × List MediaPath :=
  let scan := dimScan probe none original_clips
  if scan.1 && scan.2.isSome then (original_clips, [], [])
  else scaleAll env 0 original_clips

/-! ### Phases 3–4 of `Movie.make`: concatenation and cleanup
(`src/movie_merge/movie/processor.py:440-549`) -/

/-- The configuration `Movie.make` reads end-to-end. -/
structure AssembleEnv where
  ffmpegPath : String
  tempDir : String
  videoCodec : String
  audioCodec : String
  targetW : Nat
  targetH : Nat
  crf : Nat
  isGpuCodec : Bool
  targetFps : ℚ
  dryRun : Bool
deriving Repr

def AssembleEnv.spliceEnv (env : AssembleEnv) : SpliceEnv :=
  ⟨env.ffmpegPath, env.tempDir, env.videoCodec, env.audioCodec, env.dryRun⟩

def AssembleEnv.geoEnv (env : AssembleEnv) : GeoEnv :=
  ⟨env.ffmpegPath, env.tempDir, env.videoCodec, env.targetW, env.targetH,
   env.dryRun⟩

/-- The final concatenation encode built at
`src/movie_merge/movie/processor.py:440-524` (all scaled segments as
parallel inputs, per-segment fps/audio normalisation filters, one concat of
video and one of audio, CPU or GPU rate-control parameters). -/
def concatCmd (env : AssembleEnv) (inputs : List MediaPath)
    (output : MediaPath) : FFCommand :=
  .concatEncode inputs env.targetFps env.isGpuCodec env.videoCodec
    env.audioCodec env.crf output

/-- What one run of `Movie.make` did: its result (`.error` models the
re-raised `RuntimeError` of line 549), the external commands actually run,
the temp files registered in `temp_files`, and the temp files whose removal
was attempted by the cleanup loop of lines 534-540. -/
structure MakeOutcome where
  result : Except String Unit
  issued : List FFCommand
  tempsCreated : List MediaPath
  unlinkAttempts : List MediaPath
deriving Repr

/-- Embeds `Movie.make` (`src/movie_merge/movie/processor.py:314-549`).
`encodeOk` is the outcome of the final `self._ffmpeg._run_command(cmd)` of
line 531: on success the cleanup loop unlinks every registered temp file
(each unlink individually wrapped in `try/except`, so removal is attempted
for all of them regardless of individual failures); on failure the
exception jumps to the `except` block of line 545, which re-raises without
ever reaching the cleanup loop.  The phase-1/phase-2 command runs are taken
to succeed, as the claims quantify over runs that reach the final encode (a
failure there propagates through the same `except`, equally without
cleanup). -/
def movieMake (env : AssembleEnv) (extractMeta : MediaPath → ClipMetadata)
    (probe : MediaPath → Option (Nat × Nat)) (clips : List Clip)
    (encodeOk : Bool) (output_file : MediaPath) : MakeOutcome :=
  if clips.isEmpty then ⟨.ok (), [], [], []⟩
  else
    let spliced := spliceExpand env.spliceEnv extractMeta clips
    let scaled := geometryReconcile env.geoEnv probe spliced.1
    let temp_files := spliced.2.2 ++ scaled.2.2
    let phaseCmds := spliced.2.1 ++ scaled.2.1
    let final := concatCmd env scaled.1 output_file
    if env.dryRun then ⟨.ok (), phaseCmds, temp_files, []⟩
    else if encodeOk then
      ⟨.ok (), phaseCmds ++ [final], temp_files, temp_files⟩
    else
      ⟨.error "Failed to create movie", phaseCmds ++ [final], temp_files, []⟩

/-! ### Title sequence synthesis
(`src/movie_merge/clip/title.py`, `src/movie_merge/clip/processor.py:313-366`) -/

/-- Embeds `TitleCardConfig` (`src/movie_merge/clip/title.py:94-114`), the fields
the verified properties read. -/
structure TitleCardConfig where
  fade_duration : ℚ := 2
  duration : ℚ := 7
  fps : ℚ := 25
deriving DecidableEq, Repr

/-- Embeds `TitleCardGenerator.extract_title_segment`
(`src/movie_merge/clip/title.py:268-308`): the lead-in extraction command,
with `-ss 0` and `-t duration` exactly as the argv is built. -/
def extract_title_segment (input_file output_file : MediaPath) (duration : ℚ)
    (threads : Nat) (encoding_preset : String) : FFCommand :=
  .extractSegment input_file 0 duration "libx264" "aac" encoding_preset
    threads output_file

/-- Embeds `f"temp_segment_{output_file.name}"` placed next to the output
(`src/movie_merge/clip/title.py:344`). -/
def tempSegmentPath (output_file : MediaPath) : MediaPath :=
  { dir := output_file.dir,
    stem := "temp_segment_" ++ output_file.stem ++ output_file.ext, ext := "" }

/-- Embeds `TitleCardGenerator.generate_title_sequence`
(`src/movie_merge/clip/title.py:317-474`) as the sequence of external
commands it runs: with `use_segment=True` it first extracts a lead-in of
requested length `config.duration` (line 345-351 passes
`duration=config.duration`) and then composites/encodes over that segment;
otherwise it composites over the full input. -/
def generate_title_sequence (input_file output_file : MediaPath)
    (config : TitleCardConfig) (threads : Nat) (fps : ℚ) (use_segment : Bool)
    (encoding_preset : String) : List FFCommand :=
  if use_segment then
    let temp_segment_file := tempSegmentPath output_file
    [extract_title_segment input_file temp_segment_file config.duration
       threads encoding_preset,
     .renderComposite temp_segment_file fps encoding_preset threads
       output_file]
  else
    [.renderComposite input_file fps encoding_preset threads output_file]

/-- The total overlay duration the specification prescribes (configured card
duration plus two fade durations); `Clip.create_title` stores exactly this
value as `self.title_duration`
(`src/movie_merge/clip/processor.py:356-357`). -/
def totalOverlayDuration (config : TitleCardConfig) : ℚ :=
  config.duration + 2 * config.fade_duration

/-- Embeds `Clip.create_title` (`src/movie_merge/clip/processor.py:313-366`):
records the pre-title path, delegates to `generate_title_sequence`, points
the clip at the titled output, refreshes metadata (`newMeta` stands for the
re-probe of the new file) and stores `title_duration`.  Returns the updated
clip and the commands run. -/
def create_title (tempDir : String) (threads : Nat)
    (encoding_preset : String) (newMeta : ClipMetadata)
    (title_config : TitleCardConfig) (use_segment : Bool) (clip : Clip) :
    Clip × List FFCommand :=
  let output_file : MediaPath :=
    { dir := tempDir,
      stem := (clip.metadata.name.getD clip.path.stem) ++ "_with_title",
      ext := clip.path.ext }
  let cmds := generate_title_sequence clip.path output_file title_config
    threads clip.metadata.frame_rate use_segment encoding_preset
  ({ clip with
      original_path := some clip.path
      is_title_clip := true
      path := output_file
      metadata := newMeta
      title_duration :=
        some (title_config.duration + 2 * title_config.fade_duration) },
   cmds)

/-! ### Metadata extraction
(`src/movie_merge/clip/processor.py:121-225` and the parallel extraction
loop `src/movie_merge/movie/processor.py:171-197`) -/

/-- The `os.stat` facts `_extract_metadata` consults. -/
structure FileStat where
  present : Bool
  st_size : Nat
  st_mtime : Int
deriving DecidableEq, Repr

/-- The video-stream fields `_extract_metadata` reads from a successful
probe. -/
structure VideoStream where
  avg_frame_rate : Option (Int × Int)
  r_frame_rate : Option (Int × Int)
  codec_name : String
  width : Nat
  height : Nat
  bit_rate : Nat
deriving DecidableEq, Repr

/-- The audio-stream fields `_extract_metadata` reads. -/
structure AudioStream where
  codec_name : String
  channels : Nat
  bit_rate : Nat
  sample_rate : Nat
deriving DecidableEq, Repr

/-- A successful `ffprobe` result as `_extract_metadata` consumes it. -/
structure ProbeData where
  video : Option VideoStream
  audio : Option AudioStream
  duration : ℚ
  size : Nat
  format_name : String
deriving DecidableEq, Repr

/-- The frame-rate computation of
`src/movie_merge/clip/processor.py:182-198`: average frame rate first, then
the real base rate if the average is absent, unparsable or zero; `none`
models an absent or unparsable field. -/
def computeFps (avg r_base : Option (Int × Int)) : ℚ :=
  let ofPair : Int × Int → ℚ := fun p => if p.2 ≠ 0 then (p.1 : ℚ) / p.2 else 0
  let fps : ℚ := match avg with | some p => ofPair p | none => 0
  if fps = 0 then match r_base with | some p => ofPair p | none => 0
  else fps

/-- The synthetic metadata `_extract_metadata` substitutes when the
`ffprobe` call itself fails (`src/movie_merge/clip/processor.py:148-170`):
modification time as creation date (`datetime.fromtimestamp(mtime, tz=utc)`,
an aware datetime at offset 0), zero duration, 25 fps, 1920x1080, unknown
codecs. -/
def fallbackMetadata (f : FileStat) (stem suffix : String) : ClipMetadata :=
  { creation_date := ⟨f.st_mtime, some 0⟩
    duration := 0
    frame_rate := 25
    video_codec := "unknown"
    width := 1920
    height := 1080
    video_bitrate := 0
    audio_codec := "unknown"
    audio_channels := 2
    audio_bitrate := 0
    audio_sample_rate := 44100
    file_size := f.st_size
    format := "unknown"
    name := some stem
    extension := some (lowerStr suffix) }

/-- Embeds `Clip._extract_metadata` (`src/movie_merge/clip/processor.py:121-225`).
`probeResult = none` models the `self._ffmpeg.probe` call raising (the
`except` of line 150); `exif` models `_extract_datetime_from_exiftool`, with
the naive local `datetime.fromtimestamp(mtime)` as fallback (the local-zone
wall-clock conversion is elided: the value is kept as the raw timestamp).
An `.error` result models the `RuntimeError` re-raised at line 225. -/
def extractMetadata (f : FileStat) (probeResult : Option ProbeData)
    (exif : Option DateTime) (stem suffix : String) :
    Except String ClipMetadata :=
  if !f.present then .error "File does not exist"
  else if f.st_size = 0 then .error "File is empty"
  else
    match probeResult with
    | none => .ok (fallbackMetadata f stem suffix)
    | some probe_data =>
      match probe_data.video with
      | none => .error "Failed to extract metadata: No video stream found"
      | some video_stream =>
        .ok
          { creation_date := exif.getD ⟨f.st_mtime, none⟩
            duration := probe_data.duration
            frame_rate :=
              computeFps video_stream.avg_frame_rate video_stream.r_frame_rate
            video_codec := video_stream.codec_name
            width := video_stream.width
            height := video_stream.height
            video_bitrate := video_stream.bit_rate
            audio_codec :=
              match probe_data.audio with
              | some a => a.codec_name
              | none => "none"
            audio_channels :=
              match probe_data.audio with
              | some a => a.channels
              | none => 0
            audio_bitrate :=
              match probe_data.audio with
              | some a => a.bit_rate
              | none => 0
            audio_sample_rate :=
              match probe_data.audio with
              | some a => a.sample_rate
              | none => 0
            file_size := probe_data.size
            format := probe_data.format_name
            name := some stem
            extension := some (lowerStr suffix) }

/-- The collection step of `Movie._process_clips_in_directory`
(`src/movie_merge/movie/processor.py:186-197`): clips whose metadata
extraction raised are dropped and processing continues with the remaining
ones.  (The thread pool completes futures in nondeterministic order; the
embedding keeps submission order, which is all the verified property
reads.) -/
def successfulClips (results : List (Except String Clip)) : List Clip :=
  results.filterMap Except.toOption

/-! ### `Clip.convert_to_mp4` (`src/movie_merge/clip/processor.py:227-311`) -/

/-- Embeds `needs_processing` (`src/movie_merge/clip/processor.py:227-230`). -/
def needs_processing (clip : Clip) : Bool :=
  UNSUPPORTED_VIDEO_EXTENSIONS.contains (lowerStr clip.path.ext)

/-- Python truthiness of the optional `target_fps` float (`None` and `0.0`
are falsy). -/
def pyTruthyFps : Option ℚ → Bool
  | none => false
  | some q => q != 0

/-- Embeds `needs_framerate_adjustment = target_fps and
abs(self.metadata.frame_rate - target_fps) > 0.01`
(`src/movie_merge/clip/processor.py:240-242`). -/
def needsFramerateAdjustment (clip : Clip) (target_fps : Option ℚ) : Bool :=
  match target_fps with
  | none => false
  | some t => t != 0 && |clip.metadata.frame_rate - t| > 1 / 100

/-- What one `convert_to_mp4` call did: the possibly updated clip, the
encode commands run, and the file renames/moves performed. -/
structure ConvertOutcome where
  clip : Clip
  issued : List FFCommand
  moves : List (MediaPath × MediaPath)
deriving DecidableEq, Repr

/-- Embeds `Clip.convert_to_mp4` (`src/movie_merge/clip/processor.py:232-311`).
`newMeta` stands for the metadata re-probe of the converted file.  The
early returns at lines 235-237 and 245-247 leave the clip untouched and run
nothing; the conversion branch encodes to a temp file, moves the source
into `original/`, moves the temp file into place and refreshes path and
metadata. -/
def convert_to_mp4 (tempDir : String) (dryRun : Bool) (videoCodec : String)
    (newMeta : ClipMetadata) (clip : Clip) (target_fps : Option ℚ) :
    ConvertOutcome :=
  if !needs_processing clip && !pyTruthyFps target_fps then
    ⟨clip, [], []⟩
  else
    let is_already_mp4 := lowerStr clip.path.ext == ".mp4"
    if is_already_mp4 && !needsFramerateAdjustment clip target_fps then
      ⟨clip, [], []⟩
    else if dryRun then ⟨clip, [], []⟩
    else
      let output_file : MediaPath := { clip.path with ext := ".mp4" }
      let original_file : MediaPath :=
        { dir := clip.path.dir ++ "/original", stem := clip.path.stem,
          ext := clip.path.ext }
      let temp_output : MediaPath :=
        { dir := tempDir, stem := "temp_" ++ clip.path.fileName, ext := ".mp4" }
      let rate : Option ℚ :=
        if needsFramerateAdjustment clip target_fps then target_fps else none
      ⟨{ clip with path := output_file, metadata := newMeta },
       [.convertToMp4 clip.path rate videoCodec temp_output],
       [(clip.path, original_file), (temp_output, output_file)]⟩

/-! ### The project scheduler's skip guard
(`src/movie_merge/project/processor.py:167-213`) -/

/-- The fields of `dir_config.metadata` the scheduler reads
(`src/movie_merge/config/directory.py:24-42`; `year` is the string
`str(self.date.year)`). -/
structure DirMetadata where
  location : Option String
  year : String
deriving DecidableEq, Repr

/-- The directory configuration fields `_process_directory` reads. -/
structure DirectoryCfg where
  title : String
  metadata : DirMetadata
deriving DecidableEq, Repr

/-- The output path computed at
`src/movie_merge/project/processor.py:179-185`:
`<output_root>/<year>/<title>[ - <location>].mp4`. -/
def outputFileFor (output_path : String) (cfg : DirectoryCfg) : MediaPath :=
  { dir := output_path ++ "/" ++ cfg.metadata.year
    stem :=
      match cfg.metadata.location with
      | some loc => cfg.title ++ " - " ++ loc
      | none => cfg.title
    ext := ".mp4" }

/-- How one `_process_directory` call ended. -/
inductive DirResult where
  | dryRunSkip
  | skippedExisting
  | noFootage
  | compiled
  | failed (msg : String)
deriving DecidableEq, Repr

/-- Embeds `Project._process_directory` (`src/movie_merge/project/processor.py:167-213`).
The `Movie` constructor at line 177 runs no external command, so the
pipeline's invocations are abstracted as parameters: `processInv` are the
commands `movie.process()` would run (probes, conversions, title
synthesis), `hasFootage` whether it leaves any clips/chapters, and
`makeInv` the commands `movie.make()` would run.  The existence check of
line 188 happens before either is invoked. -/
def processDirectory (dryRun overwrite : Bool) (output_path : String)
    (cfg : DirectoryCfg) (fileExists : MediaPath → Bool)
    (processInv : List FFCommand) (hasFootage : Bool)
    (makeInv : List FFCommand) : DirResult × List FFCommand :=
  if dryRun then (.dryRunSkip, [])
  else
    let output_file := outputFileFor output_path cfg
    if fileExists output_file && !overwrite then (.skippedExisting, [])
    else if !hasFootage then (.noFootage, processInv)
    else (.compiled, processInv ++ makeInv)

/-! ### The sort engine (`Movie._sort_clips`,
`src/movie_merge/movie/processor.py:94-127`)

Python's `sorted(xs, key=k, reverse=rev)` is the stable sort by `k`: for
`rev = False` an element goes before another exactly when its key is `≤`,
with ties kept in input order; `reverse=True` reverses the key comparison
but still keeps ties in input order.  A stable sort with respect to a total
preorder is unique, and `List.insertionSort` with the tie-inclusive
relation is exactly that stable sort, so the embedding uses it. -/

/-- Embeds `SortMethod` (`src/movie_merge/config/sort.py:9-14`). -/
inductive SortMethod where
  | datetime
  | filename
  | custom
deriving DecidableEq, Repr

/-- Embeds `SortConfig` (`src/movie_merge/config/sort.py:17-23`); `custom_order`
models the optional `Dict[str, int]` as an association list. -/
structure SortConfig where
  method : SortMethod
  reverse : Bool
  custom_order : Option (List (String × Int))
deriving DecidableEq, Repr

/-- The key comparison Python's `sorted` uses: key order for
`reverse=False`, flipped key order for `reverse=True`; ties are related
both ways in either case. -/
def keyLe {α K : Type} [LinearOrder K] (key : α → K) :
    Bool → α → α → Prop
  | false, a, b => key a ≤ key b
  | true, a, b => key b ≤ key a

instance keyLe.instDecidableRel {α K : Type} [LinearOrder K] (key : α → K) :
    (rev : Bool) → DecidableRel (keyLe key rev)
  | false, a, b => inferInstanceAs (Decidable (key a ≤ key b))
  | true, a, b => inferInstanceAs (Decidable (key b ≤ key a))

instance keyLe.instIsTotal {α K : Type} [LinearOrder K] (key : α → K)
    (rev : Bool) : IsTotal α (keyLe key rev) where
  total a b := by
    cases rev
    · exact le_total (key a) (key b)
    · exact le_total (key b) (key a)

instance keyLe.instIsTrans {α K : Type} [LinearOrder K] (key : α → K)
    (rev : Bool) : IsTrans α (keyLe key rev) where
  trans a b c hab hbc := by
    cases rev
    · exact le_trans hab hbc
    · exact le_trans hbc hab

/-- The stable sort by `key` with Python's `reverse` flag. -/
def sortedByKey {α K : Type} [LinearOrder K] (key : α → K) (rev : Bool)
    (l : List α) : List α :=
  List.insertionSort (keyLe key rev) l

/-- Embeds `Movie._get_target_fps` (`src/movie_merge/movie/processor.py:80-92`). -/
def getTargetFps (clips : List Clip) : ℚ :=
  match clips with
  | [] => 30
  | first_clip :: _ =>
    let fps := first_clip.metadata.frame_rate
    if fps ≤ 0 ∨ fps > 120 then 30 else fps

/-- The creation-time sort key
(`src/movie_merge/movie/processor.py:107-111`): the normalized (naive)
datetime, which compares by wall clock. -/
def datetimeKey (c : Clip) : Int :=
  (normalize_datetime c.metadata.creation_date).wall

/-- The filename sort key (`src/movie_merge/movie/processor.py:113`). -/
def filenameKey (c : Clip) : String :=
  c.path.fileName

/-- Embeds `self.sort_config.custom_order.get(x.path.name, float("inf"))`
(`src/movie_merge/movie/processor.py:117`): missing names rank above every
ranked entry. -/
def lookupRank (m : List (String × Int)) (name : String) : WithTop Int :=
  match m.find? (fun kv => kv.1 == name) with
  | some kv => (kv.2 : WithTop Int)
  | none => ⊤

/-- The custom sort key. -/
def customKey (m : List (String × Int)) (c : Clip) : WithTop Int :=
  lookupRank m c.path.fileName

/-- The key of the fallback branch
(`src/movie_merge/movie/processor.py:120-127`), which sorts by the raw
`creation_date`.  Python compares aware datetimes by instant and naive ones
by wall clock (and raises on a mixed list); the embedding reads every
datetime at its instant, which agrees with Python on any list of uniform
awareness. -/
def fallbackKey (c : Clip) : Int :=
  c.metadata.creation_date.instant

/-- Embeds `Movie._sort_clips` (`src/movie_merge/movie/processor.py:94-127`).
The `clip.metadata is not None` filter of the fallback branch is the
identity here because the embedded `Clip` always carries metadata (as does
any Python `Clip` that survived construction). -/
def sortClips (cfg : SortConfig) (clips : List Clip) : List Clip :=
  match cfg.method with
  | .datetime => sortedByKey datetimeKey cfg.reverse clips
  | .filename => sortedByKey filenameKey cfg.reverse clips
  | .custom =>
    match cfg.custom_order with
    | some m =>
      if m.isEmpty then sortedByKey fallbackKey cfg.reverse clips
      else sortedByKey (customKey m) cfg.reverse clips
    | none => sortedByKey fallbackKey cfg.reverse clips

/-- Two clips tie under a configuration exactly when the configured
branch's keys coincide (the branch structure mirrors `sortClips`). -/
def sameKey (cfg : SortConfig) (a b : Clip) : Bool :=
  match cfg.method with
  | .datetime => decide (datetimeKey a = datetimeKey b)
  | .filename => decide (filenameKey a = filenameKey b)
  | .custom =>
    match cfg.custom_order with
    | some m =>
      if m.isEmpty then decide (fallbackKey a = fallbackKey b)
      else decide (customKey m a = customKey m b)
    | none => decide (fallbackKey a = fallbackKey b)

section StableSortLemmas

variable {α K : Type} [LinearOrder K]

theorem keyLe_of_key_eq (key : α → K) (rev : Bool) {a b : α}
    (h : key a = key b) : keyLe key rev a b := by
  cases rev <;> simp [keyLe, h]

theorem key_ne_of_not_keyLe (key : α → K) (rev : Bool) {a b : α}
    (h : ¬ keyLe key rev a b) : key a ≠ key b :=
  fun he => h (keyLe_of_key_eq key rev he)

/-- Idempotence of the embedded sort. -/
theorem sortedByKey_idem (key : α → K) (rev : Bool) (l : List α) :
    sortedByKey key rev (sortedByKey key rev l) = sortedByKey key rev l :=
  List.Sorted.insertionSort_eq
    (List.sorted_insertionSort (keyLe key rev) l)

/-- The sorted output is pairwise ordered by the key comparison. -/
theorem sortedByKey_sorted (key : α → K) (rev : Bool) (l : List α) :
    List.Sorted (keyLe key rev) (sortedByKey key rev l) :=
  List.sorted_insertionSort (keyLe key rev) l

variable [DecidableEq K]

/-- Inserting `a` places it in front of every later element that ties with
its key, so filtering at `key a` sees `a` first. -/
theorem filter_orderedInsert_key_eq (key : α → K) (rev : Bool) (a : α)
    (v : K) (hv : key a = v) :
    ∀ l : List α,
      (List.orderedInsert (keyLe key rev) a l).filter
          (fun x => decide (key x = v)) =
        a :: l.filter (fun x => decide (key x = v))
  | [] => by simp [hv]
  | b :: l => by
    by_cases hab : keyLe key rev a b
    · simp [List.orderedInsert, hab, hv]
    · have hb : ¬ (key b = v) := by
        intro hbv
        exact key_ne_of_not_keyLe key rev hab (hv.trans hbv.symm)
      simp only [List.orderedInsert, if_neg hab, List.filter_cons,
        decide_eq_true_eq, if_neg hb,
        filter_orderedInsert_key_eq key rev a v hv l]

/-- Inserting an element whose key is not `v` leaves the filter at `v`
unchanged. -/
theorem filter_orderedInsert_key_ne (key : α → K) (rev : Bool) (a : α)
    (v : K) (hv : key a ≠ v) :
    ∀ l : List α,
      (List.orderedInsert (keyLe key rev) a l).filter
          (fun x => decide (key x = v)) =
        l.filter (fun x => decide (key x = v))
  | [] => by simp [hv]
  | b :: l => by
    by_cases hab : keyLe key rev a b
    · simp [List.orderedInsert, hab, List.filter_cons, hv]
    · simp only [List.orderedInsert, if_neg hab, List.filter_cons,
        filter_orderedInsert_key_ne key rev a v hv l]

/-- Stability of the embedded sort: the elements tying at any key value
keep their input order. -/
theorem filter_sortedByKey (key : α → K) (rev : Bool) (v : K) :
    ∀ l : List α,
      (sortedByKey key rev l).filter (fun x => decide (key x = v)) =
        l.filter (fun x => decide (key x = v))
  | [] => rfl
  | a :: l => by
    have ih := filter_sortedByKey key rev v l
    rw [sortedByKey] at ih
    by_cases ha : key a = v
    · rw [sortedByKey, List.insertionSort,
        filter_orderedInsert_key_eq key rev a v ha, ih, List.filter_cons]
      simp [ha]
    · rw [sortedByKey, List.insertionSort,
        filter_orderedInsert_key_ne key rev a v ha, ih, List.filter_cons]
      simp [ha]

end StableSortLemmas

/-! ### Concrete sample data used to evaluate the verified properties -/

/-- A metadata record with the fields the pipeline branches on. -/
def mkMeta (cd : DateTime) (dur fr : ℚ) (w h : Nat) : ClipMetadata :=
  { creation_date := cd
    duration := dur
    frame_rate := fr
    video_codec := "h264"
    width := w
    height := h
    video_bitrate := 4000000
    audio_codec := "aac"
    audio_channels := 2
    audio_bitrate := 192000
    audio_sample_rate := 48000
    file_size := 1048576
    format := "mov,mp4,m4a,3gp,3g2,mj2" }

/-- A sample `.mp4` source path. -/
def mkPath (stem : String) : MediaPath :=
  ⟨"/videos", stem, ".mp4"⟩

/-- A plain (non-title) clip. -/
def mkClip (stem : String) (cd : DateTime) (dur fr : ℚ) : Clip :=
  { path := mkPath stem, is_title := false,
    metadata := mkMeta cd dur fr 1920 1080 }

def sampleOriginalPath : MediaPath := mkPath "orig"

def sampleSpliceEnv : SpliceEnv := ⟨"ffmpeg", "/tmp", "libx264", "aac", false⟩

def sampleAssembleEnv : AssembleEnv :=
  ⟨"ffmpeg", "/tmp", "libx264", "aac", 1920, 1080, 20, false, 30, false⟩

/-- Probe of the original source: 10 s long. -/
def sampleEm : MediaPath → ClipMetadata :=
  fun _ => mkMeta ⟨0, none⟩ 10 30 1920 1080

/-- Dimension probe reporting 1920x1080 for every segment. -/
def sampleProbe : MediaPath → Option (Nat × Nat) :=
  fun _ => some (1920, 1080)

/-- A titled clip after splicing: the titled file used 4 s of the 10 s
original. -/
def sampleTitledClip : Clip :=
  { path := mkPath "titled", is_title := true,
    metadata := mkMeta ⟨0, none⟩ 4 30 1920 1080,
    is_title_clip := true, original_path := some sampleOriginalPath,
    title_duration := some 11 }

/-! ### Helper lemmas about the assembly phases -/

theorem spliceExpand_cons (env : SpliceEnv) (em : MediaPath → ClipMetadata)
    (c : Clip) (l : List Clip) :
    spliceExpand env em (c :: l) =
      ((spliceClip env em c).1 ++ (spliceExpand env em l).1,
       (spliceClip env em c).2.1 ++ (spliceExpand env em l).2.1,
       (spliceClip env em c).2.2 ++ (spliceExpand env em l).2.2) := rfl

theorem spliceExpand_append (env : SpliceEnv) (em : MediaPath → ClipMetadata)
    (l₁ l₂ : List Clip) :
    spliceExpand env em (l₁ ++ l₂) =
      ((spliceExpand env em l₁).1 ++ (spliceExpand env em l₂).1,
       (spliceExpand env em l₁).2.1 ++ (spliceExpand env em l₂).2.1,
       (spliceExpand env em l₁).2.2 ++ (spliceExpand env em l₂).2.2) := by
  induction l₁ with
  | nil => simp [spliceExpand]
  | cons a l ih =>
    simp only [List.cons_append, spliceExpand_cons, ih, List.append_assoc]

/-- The contribution of a title-bearing clip whose original outlasts the
titled file. -/
theorem spliceClip_remainder (env : SpliceEnv)
    (em : MediaPath → ClipMetadata) (c : Clip) (o : MediaPath)
    (hdry : env.dryRun = false) (ht : c.is_title_clip = true)
    (ho : c.original_path = some o)
    (hgt : (em o).duration > c.metadata.duration) :
    spliceClip env em c =
      ([c.path, remainderPath env o],
       [remainderCmd env c.metadata.duration o (remainderPath env o)],
       [remainderPath env o]) := by
  unfold spliceClip
  rw [ht, ho]
  simp [hgt, hdry]

/-- The contribution of a title-bearing clip whose original does not
outlast the titled file. -/
theorem spliceClip_no_remainder (env : SpliceEnv)
    (em : MediaPath → ClipMetadata) (c : Clip) (o : MediaPath)
    (ht : c.is_title_clip = true) (ho : c.original_path = some o)
    (hle : (em o).duration ≤ c.metadata.duration) :
    spliceClip env em c = ([c.path], [], []) := by
  unfold spliceClip
  rw [ht, ho]
  simp [not_lt.mpr hle]

theorem dimScan_all_eq (probe : MediaPath → Option (Nat × Nat))
    (d : Nat × Nat) :
    ∀ l : List MediaPath, (∀ p ∈ l, probe p = some d) →
      dimScan probe (some d) l = (true, some d)
  | [], _ => rfl
  | p :: rest, h => by
    have hp : probe p = some d := h p (List.mem_cons_self p rest)
    have hrest := dimScan_all_eq probe d rest fun q hq =>
      h q (List.mem_cons_of_mem p hq)
    simp [dimScan, hp, hrest]

theorem dimScan_true_all (probe : MediaPath → Option (Nat × Nat))
    (r : Nat × Nat) :
    ∀ l : List MediaPath, (dimScan probe (some r) l).1 = true →
      ∀ p ∈ l, probe p = some r
  | [], _, p, hp => absurd hp (List.not_mem_nil p)
  | q :: rest, h, p, hp => by
    rcases hq : probe q with _ | wh
    · simp [dimScan, hq] at h
    · simp only [dimScan, hq] at h
      by_cases hwh : wh = r
      · subst hwh
        rw [if_pos rfl] at h
        rcases List.mem_cons.mp hp with rfl | hp'
        · exact hq
        · exact dimScan_true_all probe wh rest h p hp'
      · rw [if_neg hwh] at h
        simp at h

theorem scaleAll_length (env : GeoEnv) (hdry : env.dryRun = false) :
    ∀ (i : Nat) (l : List MediaPath),
      (scaleAll env i l).1.length = l.length ∧
        (scaleAll env i l).2.1.length = l.length
  | _, [] => ⟨rfl, rfl⟩
  | i, p :: rest => by
    have ih := scaleAll_length env hdry (i + 1) rest
    simp [scaleAll, hdry, ih.1, ih.2]

theorem scaleAll_cmds_shape (env : GeoEnv) :
    ∀ (i : Nat) (l : List MediaPath),
      ∀ cmd ∈ (scaleAll env i l).2.1,
        ∃ p t, p ∈ l ∧ cmd = scaleCmd env p t
  | _, [], cmd, h => absurd h (List.not_mem_nil cmd)
  | i, p :: rest, cmd, h => by
    rw [scaleAll] at h
    by_cases hdry : env.dryRun
    · rw [if_pos hdry] at h
      obtain ⟨q, t, hq, hc⟩ := scaleAll_cmds_shape env (i + 1) rest cmd h
      exact ⟨q, t, List.mem_cons_of_mem p hq, hc⟩
    · rw [if_neg hdry] at h
      rcases List.mem_cons.mp h with hc | h'
      · exact ⟨p, scaledPath env i p, List.mem_cons_self p rest, hc⟩
      · obtain ⟨q, t, hq, hc⟩ := scaleAll_cmds_shape env (i + 1) rest cmd h'
        exact ⟨q, t, List.mem_cons_of_mem p hq, hc⟩

/-! ### The verified properties -/

/-- Claim C1. For every title-bearing clip with an `original_path` whose
original's probed duration `D` exceeds the used duration `U` (the re-probed
duration of the titled clip), the splice-expansion phase of `Movie.make`
runs one remainder extraction on the original whose requested `-ss` start
offset is exactly `U`, and places the remainder segment immediately after
the title segment in the assembly list; if `D ≤ U` the clip contributes
only its title segment and no extraction command. -/
theorem c1_remainder_splice (env : SpliceEnv)
    (em : MediaPath → ClipMetadata) (pre post : List Clip) (c : Clip)
    (o : MediaPath) (hdry : env.dryRun = false)
    (ht : c.is_title_clip = true) (ho : c.original_path = some o) :
    ((em o).duration > c.metadata.duration →
      (spliceExpand env em (pre ++ c :: post)).1 =
        (spliceExpand env em pre).1 ++ [c.path, remainderPath env o] ++
          (spliceExpand env em post).1 ∧
      (spliceExpand env em (pre ++ c :: post)).2.1 =
        (spliceExpand env em pre).2.1 ++
          [remainderCmd env c.metadata.duration o (remainderPath env o)] ++
          (spliceExpand env em post).2.1) ∧
    ((em o).duration ≤ c.metadata.duration →
      (spliceExpand env em (pre ++ c :: post)).1 =
        (spliceExpand env em pre).1 ++ [c.path] ++
          (spliceExpand env em post).1 ∧
      (spliceExpand env em (pre ++ c :: post)).2.1 =
        (spliceExpand env em pre).2.1 ++ (spliceExpand env em post).2.1) := by
  constructor
  · intro hgt
    rw [spliceExpand_append, spliceExpand_cons,
      spliceClip_remainder env em c o hdry ht ho hgt]
    simp [List.append_assoc]
  · intro hle
    rw [spliceExpand_append, spliceExpand_cons,
      spliceClip_no_remainder env em c o ht ho hle]
    simp [List.append_assoc]

/-- Witness for C1 at concrete data: a 10 s original behind a titled clip
that used 4 s of it yields exactly one remainder extraction starting at
4 s, directly after the title segment. -/
theorem c1_remainder_splice_witness :
    (10 : ℚ) > 4 ∧
    (spliceExpand sampleSpliceEnv sampleEm [sampleTitledClip]).1 =
      [mkPath "titled", ⟨"/tmp", "remainder_orig", ".mp4"⟩] ∧
    (spliceExpand sampleSpliceEnv sampleEm [sampleTitledClip]).2.1 =
      [.extractRemainder 4 sampleOriginalPath "libx264" "aac"
        ⟨"/tmp", "remainder_orig", ".mp4"⟩] := by
  have h := (c1_remainder_splice sampleSpliceEnv sampleEm [] []
    sampleTitledClip sampleOriginalPath rfl rfl rfl).1 (by decide)
  refine ⟨by decide, ?_, ?_⟩
  · have := h.1
    simpa [spliceExpand, remainderPath, sampleSpliceEnv, sampleOriginalPath,
      mkPath, sampleTitledClip] using this
  · have := h.2
    simpa [spliceExpand, remainderCmd, remainderPath, sampleSpliceEnv,
      sampleOriginalPath, mkPath, sampleTitledClip, mkMeta] using this

/-- Claim C2. Geometry reconciliation in `Movie.make`: if every segment
probes to the same width and height, the segments are passed through
untouched and zero scale commands are issued; if the first segment probes
successfully and any segment probes to different dimensions, all `N`
segments are re-encoded (the scale command list has length `N`, every
command a scale-and-pad to the configured target resolution). -/
theorem c2_geometry_reconciliation (env : GeoEnv)
    (probe : MediaPath → Option (Nat × Nat)) (segs : List MediaPath) :
    (∀ d : Nat × Nat, (∀ p ∈ segs, probe p = some d) →
      geometryReconcile env probe segs = (segs, [], [])) ∧
    (∀ (p₀ : MediaPath) (rest : List MediaPath) (d₀ dq : Nat × Nat)
        (q : MediaPath), segs = p₀ :: rest → probe p₀ = some d₀ →
        q ∈ rest → probe q = some dq → dq ≠ d₀ → env.dryRun = false →
      (geometryReconcile env probe segs).2.1.length = segs.length ∧
        ∀ cmd ∈ (geometryReconcile env probe segs).2.1,
          ∃ p t, p ∈ segs ∧ cmd = scaleCmd env p t) := by
  constructor
  · intro d hall
    match segs, hall with
    | [], _ => rfl
    | p :: rest, hall =>
      have hp : probe p = some d := hall p (List.mem_cons_self p rest)
      have hrest := dimScan_all_eq probe d rest fun q hq =>
        hall q (List.mem_cons_of_mem p hq)
      unfold geometryReconcile
      rw [dimScan, hp]
      simp [hrest]
  · intro p₀ rest d₀ dq q hsegs h₀ hq hpq hne hdry
    subst hsegs
    have hfalse : (dimScan probe none (p₀ :: rest)).1 = false := by
      by_contra hcon
      have htrue : (dimScan probe none (p₀ :: rest)).1 = true := by
        cases h : (dimScan probe none (p₀ :: rest)).1
        · exact absurd h hcon
        · rfl
      rw [dimScan, h₀] at htrue
      have := dimScan_true_all probe d₀ rest htrue q hq
      rw [hpq] at this
      exact hne (Option.some.injEq _ _ ▸ this)
    have hbranch : geometryReconcile env probe (p₀ :: rest) =
        scaleAll env 0 (p₀ :: rest) := by
      simp [geometryReconcile, hfalse]
    rw [hbranch]
    exact ⟨(scaleAll_length env hdry 0 (p₀ :: rest)).2,
      scaleAll_cmds_shape env 0 (p₀ :: rest)⟩

/-- Witness for C2: three same-sized segments are passed through with no
scale command; when the middle one differs, all three are re-encoded. -/
theorem c2_geometry_reconciliation_witness :
    (geometryReconcile ⟨"ffmpeg", "/tmp", "libx264", 1920, 1080, false⟩
        sampleProbe [mkPath "a", mkPath "b", mkPath "c"] =
      ([mkPath "a", mkPath "b", mkPath "c"], [], [])) ∧
    (geometryReconcile ⟨"ffmpeg", "/tmp", "libx264", 1920, 1080, false⟩
        (fun p => if p = mkPath "b" then some (1280, 720)
                  else some (1920, 1080))
        [mkPath "a", mkPath "b", mkPath "c"]).2.1.length = 3 := by
  constructor
  · exact (c2_geometry_reconciliation _ sampleProbe _).1 (1920, 1080)
      (fun p _ => rfl)
  · exact ((c2_geometry_reconciliation _ _ _).2 (mkPath "a")
      [mkPath "b", mkPath "c"] (1920, 1080) (1280, 720) (mkPath "b")
      rfl (by decide) (by decide) (by decide) (by decide) rfl).1

/-- Claim C3. `Project._process_directory` checks the computed output path
before invoking `Movie.process` or `Movie.make`: when that file exists and
overwrite is disabled, the call returns having run no probe, conversion,
title-synthesis or encode invocation, so a re-run over an event whose
output exists produces no second encode. -/
theorem c3_skip_existing (dryRun overwrite : Bool) (output_path : String)
    (cfg : DirectoryCfg) (fileExists : MediaPath → Bool)
    (processInv : List FFCommand) (hasFootage : Bool)
    (makeInv : List FFCommand)
    (hex : fileExists (outputFileFor output_path cfg) = true)
    (hov : overwrite = false) :
    (processDirectory dryRun overwrite output_path cfg fileExists
        processInv hasFootage makeInv).2 = [] ∧
      ((processDirectory dryRun overwrite output_path cfg fileExists
          processInv hasFootage makeInv).1 = .dryRunSkip ∨
        (processDirectory dryRun overwrite output_path cfg fileExists
          processInv hasFootage makeInv).1 = .skippedExisting) := by
  cases dryRun
  · simp [processDirectory, hex, hov]
  · simp [processDirectory]

/-- Witness for C3: with the output file present and overwrite disabled,
no invocation is issued even though the pipeline would have issued one. -/
theorem c3_skip_existing_witness :
    (processDirectory false false "/out"
        ⟨"Birthday", ⟨some "Paris", "2020"⟩⟩ (fun _ => true)
        [.probe (mkPath "a")] true
        [.concatEncode [mkPath "a"] 30 false "libx264" "aac" 20
          (mkPath "out")]).2 = [] := by
  exact (c3_skip_existing false false "/out"
    ⟨"Birthday", ⟨some "Paris", "2020"⟩⟩ (fun _ => true)
    [.probe (mkPath "a")] true
    [.concatEncode [mkPath "a"] 30 false "libx264" "aac" 20 (mkPath "out")]
    rfl rfl).1

/-- Claim C4, counterexample. With `reverse=True`, the custom-order sort puts
an unmapped clip (key `+inf`) *before* the mapped one: `sorted(...,
reverse=True)` reverses the whole key comparison, including the
ranked/unranked partition.  Claimed: unmapped clips sort after all mapped
ones for either value of the reverse flag. -/
theorem c4_reverse_flips_partition :
    sortClips ⟨.custom, true, some [("a.mp4", 0)]⟩
        [mkClip "a" ⟨0, none⟩ 10 30, mkClip "b" ⟨0, none⟩ 10 30] =
      [mkClip "b" ⟨0, none⟩ 10 30, mkClip "a" ⟨0, none⟩ 10 30] ∧
    customKey [("a.mp4", 0)] (mkClip "b" ⟨0, none⟩ 10 30) = ⊤ ∧
    customKey [("a.mp4", 0)] (mkClip "a" ⟨0, none⟩ 10 30) ≠ ⊤ := by
  refine ⟨?_, by decide, by decide⟩
  decide

/-- Claim C4, amended. Under the custom-order sort, clips absent from the
mapping (rank `+inf`) sort after all mapped clips when `reverse` is false;
when `reverse` is true the comparison is flipped wholesale, so the unmapped
clips sort *before* all mapped ones.  (The original claim asserted the
after-partition for both flag values.) -/
theorem c4_unranked_partition (m : List (String × Int)) (rev : Bool)
    (clips : List Clip) (hm : m.isEmpty = false) :
    (rev = false →
      (sortClips ⟨.custom, rev, some m⟩ clips).Pairwise
        (fun a b => customKey m a = ⊤ → customKey m b = ⊤)) ∧
    (rev = true →
      (sortClips ⟨.custom, rev, some m⟩ clips).Pairwise
        (fun a b => customKey m a ≠ ⊤ → customKey m b ≠ ⊤)) := by
  have hsort : sortClips ⟨.custom, rev, some m⟩ clips =
      sortedByKey (customKey m) rev clips := by
    simp [sortClips, hm]
  constructor
  · rintro rfl
    rw [hsort]
    refine (sortedByKey_sorted (customKey m) false clips).imp ?_
    intro a b hab ha
    have hab' : customKey m a ≤ customKey m b := hab
    rw [ha] at hab'
    exact top_le_iff.mp hab'
  · rintro rfl
    rw [hsort]
    refine (sortedByKey_sorted (customKey m) true clips).imp ?_
    intro a b hab ha hb
    have hab' : customKey m b ≤ customKey m a := hab
    rw [hb] at hab'
    exact ha (top_le_iff.mp hab')

/-- Witness for the amended C4 at concrete data: with `reverse=False`, no
mapped clip ever follows an unmapped one. -/
theorem c4_unranked_partition_witness :
    ([("a.mp4", (0 : Int))].isEmpty = false) ∧
    (sortClips ⟨.custom, false, some [("a.mp4", 0)]⟩
        [mkClip "b" ⟨0, none⟩ 10 30, mkClip "a" ⟨0, none⟩ 10 30]).Pairwise
      (fun a b => customKey [("a.mp4", 0)] a = ⊤ →
        customKey [("a.mp4", 0)] b = ⊤) :=
  ⟨rfl,
   (c4_unranked_partition [("a.mp4", 0)] false
     [mkClip "b" ⟨0, none⟩ 10 30, mkClip "a" ⟨0, none⟩ 10 30] rfl).1 rfl⟩

/-- Claim C5. The claim (and the comment over `normalize_datetime`, which
says "Convert timezone-aware datetime to naive datetime (UTC)") require two
creation timestamps denoting the same absolute instant to compare equal.
`dt.replace(tzinfo=None)` only strips the offset and keeps the wall clock:
12:00:00+00:00 and 14:00:00+02:00 denote the same instant yet normalize to
the distinct naive readings 12:00 and 14:00, so the creation-time sort
orders them strictly instead of treating them as a tie (a stable sort of
equal keys would have preserved the input order). -/
theorem c5_same_instant_not_equal :
    DateTime.instant ⟨43200, some 0⟩ = DateTime.instant ⟨50400, some 7200⟩ ∧
    normalize_datetime ⟨43200, some 0⟩ ≠ normalize_datetime ⟨50400, some 7200⟩ ∧
    sortClips ⟨.datetime, false, none⟩
        [mkClip "b" ⟨50400, some 7200⟩ 10 30, mkClip "a" ⟨43200, some 0⟩ 10 30] =
      [mkClip "a" ⟨43200, some 0⟩ 10 30, mkClip "b" ⟨50400, some 7200⟩ 10 30] := by
  refine ⟨by decide, by decide, ?_⟩
  decide

/-- Claim C9. Every `_sort_clips` branch (creation-time, filename, custom
with a mapping, and the raw-creation-date fallback) is a stable sort for
either value of the reverse flag: sorting is idempotent, and clips whose
configured sort keys tie keep their input relative order. -/
theorem c9_sort_idempotent_stable (cfg : SortConfig) (clips : List Clip) :
    sortClips cfg (sortClips cfg clips) = sortClips cfg clips ∧
    ∀ x : Clip,
      (sortClips cfg clips).filter (fun c => sameKey cfg c x) =
        clips.filter (fun c => sameKey cfg c x) := by
  obtain ⟨method, rev, co⟩ := cfg
  cases method with
  | datetime =>
    refine ⟨?_, fun x => ?_⟩
    · simp only [sortClips]
      exact sortedByKey_idem datetimeKey rev clips
    · simp only [sortClips, sameKey]
      exact filter_sortedByKey datetimeKey rev (datetimeKey x) clips
  | filename =>
    refine ⟨?_, fun x => ?_⟩
    · simp only [sortClips]
      exact sortedByKey_idem filenameKey rev clips
    · simp only [sortClips, sameKey]
      exact filter_sortedByKey filenameKey rev (filenameKey x) clips
  | custom =>
    cases co with
    | none =>
      refine ⟨?_, fun x => ?_⟩
      · simp only [sortClips]
        exact sortedByKey_idem fallbackKey rev clips
      · simp only [sortClips, sameKey]
        exact filter_sortedByKey fallbackKey rev (fallbackKey x) clips
    | some m =>
      by_cases hm : m.isEmpty
      · constructor
        · simp only [sortClips, hm, if_true]
          exact sortedByKey_idem fallbackKey rev _
        · intro x
          simp only [sortClips, sameKey, hm, if_true]
          exact filter_sortedByKey fallbackKey rev (fallbackKey x) clips
      · constructor
        · simp only [sortClips, hm, if_false]
          exact sortedByKey_idem (customKey m) rev _
        · intro x
          simp only [sortClips, sameKey, hm, if_false]
          exact filter_sortedByKey (customKey m) rev (customKey m x) clips

/-- Claim C6, counterexample. With the default title configuration
(card duration 7 s, fade duration 2 s), the lead-in extraction issued by
`generate_title_sequence` requests `-t 7` — the configured card duration
alone — not the claimed total overlay duration
`duration + 2 * fade_duration = 11`. -/
theorem c6_segment_length_counterexample :
    (generate_title_sequence (mkPath "src") (mkPath "withtitle")
        {} 4 25 true "medium").head? =
      some (.extractSegment (mkPath "src") 0 7 "libx264" "aac" "medium" 4
        (tempSegmentPath (mkPath "withtitle"))) ∧
    ({} : TitleCardConfig).duration ≠ totalOverlayDuration {} := by
  constructor
  · rfl
  · norm_num [totalOverlayDuration]

/-- Claim C6, amended. With the segment strategy enabled, the lead-in
extracted from the title-bearing clip's current file has requested length
equal to the configured card duration alone (`config.duration`, passed to
`extract_title_segment` at `title.py:345-351`); the sum
`duration + 2 * fade_duration` is computed by `Clip.create_title` and
stored as the clip's `title_duration` attribute, but is not what the
extraction requests. -/
theorem c6_segment_length (input_file output_file : MediaPath)
    (config : TitleCardConfig) (threads : Nat) (fps : ℚ)
    (encoding_preset : String) (tempDir : String) (newMeta : ClipMetadata)
    (clip : Clip) :
    (generate_title_sequence input_file output_file config threads fps true
        encoding_preset).head? =
      some (extract_title_segment input_file (tempSegmentPath output_file)
        config.duration threads encoding_preset) ∧
    ((create_title tempDir threads encoding_preset newMeta config true
        clip).1).title_duration = some (totalOverlayDuration config) := by
  exact ⟨rfl, rfl⟩

/-- Claim C7, counterexample. A clip whose file exists and is non-empty but
whose `ffprobe` call fails does *not* produce a metadata-extraction error:
`_extract_metadata` substitutes synthetic defaults (25 fps, 1920x1080,
"unknown" codecs) and returns them, so the clip is retained rather than
excluded from its chapter. -/
theorem c7_probe_fallback_counterexample :
    extractMetadata ⟨true, 1024, 0⟩ none none "video" ".MP4" =
      .ok (fallbackMetadata ⟨true, 1024, 0⟩ "video" ".MP4") ∧
    (fallbackMetadata ⟨true, 1024, 0⟩ "video" ".MP4").frame_rate = 25 ∧
    (fallbackMetadata ⟨true, 1024, 0⟩ "video" ".MP4").width = 1920 := by
  exact ⟨rfl, rfl, rfl⟩

/-- Claim C7, amended. `_extract_metadata` errors — and the metadata loop of
`Movie._process_clips_in_directory` therefore excludes the clip while
continuing with the remaining ones — exactly when the file is missing,
empty, or a successful probe reports no video stream; when the probe call
itself fails on an existing non-empty file, synthetic default metadata is
substituted and the clip is retained. -/
theorem c7_probe_failure_policy (f : FileStat) (pr : Option ProbeData)
    (exif : Option DateTime) (stem suffix : String) :
    (pr = none → f.present = true → f.st_size ≠ 0 →
      extractMetadata f pr exif stem suffix =
        .ok (fallbackMetadata f stem suffix)) ∧
    ((∃ e, extractMetadata f pr exif stem suffix = .error e) ↔
      f.present = false ∨ f.st_size = 0 ∨
        ∃ pd, pr = some pd ∧ pd.video = none) ∧
    (∀ (rs₁ rs₂ : List (Except String Clip)) (e : String),
      successfulClips (rs₁ ++ .error e :: rs₂) =
        successfulClips rs₁ ++ successfulClips rs₂) := by
  refine ⟨?_, ?_, ?_⟩
  · rintro rfl hp hs
    simp [extractMetadata, hp, hs]
  · cases hp : f.present
    · simp [extractMetadata, hp]
    · by_cases hs : f.st_size = 0
      · simp [extractMetadata, hp, hs]
      · cases pr with
        | none => simp [extractMetadata, hp, hs]
        | some pd =>
          cases hv : pd.video with
          | none => simp [extractMetadata, hp, hs, hv]
          | some vs => simp [extractMetadata, hp, hs, hv]
  · intro rs₁ rs₂ e
    simp [successfulClips, Except.toOption]

/-- Witness for C7: a probe failure on an existing 5-byte file yields the
synthetic fallback metadata and no error. -/
theorem c7_probe_failure_policy_witness :
    extractMetadata ⟨true, 5, 0⟩ none none "v" ".mp4" =
      .ok (fallbackMetadata ⟨true, 5, 0⟩ "v" ".mp4") ∧
    ¬ ∃ e, extractMetadata ⟨true, 5, 0⟩ none none "v" ".mp4" = .error e := by
  have h := c7_probe_failure_policy ⟨true, 5, 0⟩ none none "v" ".mp4"
  refine ⟨h.1 rfl rfl (by decide), fun he => ?_⟩
  rcases h.2.1.mp he with h1 | h1 | ⟨pd, hpd, _⟩
  · exact absurd h1 (by decide)
  · exact absurd h1 (by decide)
  · exact Option.noConfusion hpd

/-- Claim C8, counterexample. A non-dry run of `Movie.make` that created a
remainder temp segment and whose final encode fails propagates the
assembly failure but attempts *no* cleanup: the unlink loop of lines
534-540 sits after the encode inside the `try`, and the `except` re-raises
without reaching it.  Claimed: cleanup is still attempted best-effort on
failure. -/
theorem c8_no_cleanup_on_failure :
    (movieMake sampleAssembleEnv sampleEm sampleProbe [sampleTitledClip]
        false (mkPath "out")).tempsCreated =
      [⟨"/tmp", "remainder_orig", ".mp4"⟩] ∧
    (movieMake sampleAssembleEnv sampleEm sampleProbe [sampleTitledClip]
        false (mkPath "out")).unlinkAttempts = [] ∧
    (movieMake sampleAssembleEnv sampleEm sampleProbe [sampleTitledClip]
        false (mkPath "out")).result = .error "Failed to create movie" := by
  refine ⟨?_, rfl, rfl⟩
  decide

/-- Claim C8, amended. In a non-dry `Movie.make` run over a non-empty clip
list, removal of every temporary segment created by splice expansion and
scaling is attempted (each unlink individually best-effort) only after a
*successful* final encode; when the final encode fails, no cleanup of those
temp segments is attempted and the failure is propagated to the caller. -/
theorem c8_cleanup_policy (env : AssembleEnv)
    (em : MediaPath → ClipMetadata) (probe : MediaPath → Option (Nat × Nat))
    (clips : List Clip) (encodeOk : Bool) (out : MediaPath)
    (hdry : env.dryRun = false) (hne : clips ≠ []) :
    (encodeOk = true →
      (movieMake env em probe clips encodeOk out).result = .ok () ∧
      (movieMake env em probe clips encodeOk out).unlinkAttempts =
        (movieMake env em probe clips encodeOk out).tempsCreated) ∧
    (encodeOk = false →
      (movieMake env em probe clips encodeOk out).result =
        .error "Failed to create movie" ∧
      (movieMake env em probe clips encodeOk out).unlinkAttempts = []) := by
  have hempty : clips.isEmpty = false := by
    cases clips
    · exact absurd rfl hne
    · rfl
  constructor
  · rintro rfl
    simp [movieMake, hempty, hdry]
  · rintro rfl
    simp [movieMake, hempty, hdry]

/-- Witness for the amended C8: the same concrete run with a successful
encode attempts removal of exactly the created temp segment. -/
theorem c8_cleanup_policy_witness :
    (movieMake sampleAssembleEnv sampleEm sampleProbe [sampleTitledClip]
        true (mkPath "out")).result = .ok () ∧
    (movieMake sampleAssembleEnv sampleEm sampleProbe [sampleTitledClip]
        true (mkPath "out")).unlinkAttempts =
      (movieMake sampleAssembleEnv sampleEm sampleProbe [sampleTitledClip]
        true (mkPath "out")).tempsCreated := by
  exact (c8_cleanup_policy sampleAssembleEnv sampleEm sampleProbe
    [sampleTitledClip] true (mkPath "out") rfl (by simp)).1 rfl

/-- Claim C10. `convert_to_mp4` on a clip whose path already carries the
`.mp4` extension is a no-op — same clip, no encode command, no file move —
whenever no target framerate is given or the clip's probed frame rate is
within 0.01 of the requested target. -/
theorem c10_convert_noop (tempDir : String) (dryRun : Bool)
    (videoCodec : String) (newMeta : ClipMetadata) (clip : Clip)
    (target_fps : Option ℚ) (hmp4 : lowerStr clip.path.ext = ".mp4")
    (hfps : target_fps = none ∨
      ∃ t, target_fps = some t ∧
        |clip.metadata.frame_rate - t| ≤ 1 / 100) :
    convert_to_mp4 tempDir dryRun videoCodec newMeta clip target_fps =
      ⟨clip, [], []⟩ := by
  have hnp : needs_processing clip = false := by
    simp [needs_processing, hmp4, UNSUPPORTED_VIDEO_EXTENSIONS]
  rcases hfps with rfl | ⟨t, rfl, hclose⟩
  · simp [convert_to_mp4, hnp, pyTruthyFps]
  · by_cases ht : t = 0
    · subst ht
      simp [convert_to_mp4, hnp, pyTruthyFps]
    · have hdec : decide (|clip.metadata.frame_rate - t| > 1 / 100) = false :=
        decide_eq_false (not_lt.mpr hclose)
      have hadj : needsFramerateAdjustment clip (some t) = false := by
        simp only [needsFramerateAdjustment]
        rw [hdec, Bool.and_false]
      simp [convert_to_mp4, hnp, pyTruthyFps, ht, hadj, hmp4]

/-- Witness for C10: a 30 fps `.mp4` clip asked to hit exactly 30 fps is
returned untouched with no command and no move. -/
theorem c10_convert_noop_witness :
    convert_to_mp4 "/tmp" false "libx264"
        (mkMeta ⟨0, none⟩ 10 30 1920 1080)
        (mkClip "done" ⟨0, none⟩ 10 30) (some 30) =
      ⟨mkClip "done" ⟨0, none⟩ 10 30, [], []⟩ := by
  exact c10_convert_noop "/tmp" false "libx264"
    (mkMeta ⟨0, none⟩ 10 30 1920 1080) (mkClip "done" ⟨0, none⟩ 10 30)
    (some 30) rfl (Or.inr ⟨30, rfl, by norm_num [mkClip, mkMeta]⟩)

end MovieMerge
